import Mathlib

/-!
Verification of the LogMind pluggable file/log parsing engine
(`src/tools/parsers/file_parse.py` and `src/tools/parsers/logparser.py`).

Files are modelled as `Option (List String)`: `none` is a file that cannot
be opened/read (the `except` paths around `open`), `some lines` is the list
of the file's lines (each without its trailing newline, as produced by
Python line iteration; `line.strip()` is modelled by `pyStrip`).

Exceptions are modelled by the `PyError` type below; a streaming parse
(a Python generator run to exhaustion) is modelled as the list of yielded
records together with the terminal exception, if one was raised.
-/

/-- The failure conditions raised by the parsing engine.
`unsupportedFormat` is the `ValueError` raised by `FileParser.parse`,
`formatNotRecognized` the `ValueError` raised by `LogParser.parse`,
`malformedRecord` the `json.JSONDecodeError` re-raised by `JSONLParser.parse`,
`ioError` a file open/read failure (`FileNotFoundError` etc.). -/
inductive PyError where
  | unsupportedFormat
  | formatNotRecognized
  | malformedRecord
  | ioError
deriving DecidableEq

/-- A parsed record: a Python dict in insertion order, as produced by
`re.Match.groupdict()` and mutated by item assignment. -/
abbrev Rec := List (String × String)

/-- The outcome of running a streaming parse (a generator) to exhaustion:
the records yielded, in order, and the exception that terminated the
stream (`none` = normal exhaustion). -/
abbrev StreamResult (α : Type) := List α × Option PyError

/- ### Regular-expression engine

The two sub-parsers in `logparser.py` match lines against compiled regular
expressions.  The patterns use only: literal characters, the character
classes below, the quantifiers `+`, `*`, `{n}`, and named capture groups
around a single quantified class.  The engine below implements exactly
this fragment with Python's leftmost/greedy backtracking semantics:
`mtch` is `re.match` (anchored at the start, the end unanchored),
`reSearch` is `re.search` (first position, scanning left to right). -/

/-- Character classes occurring in the detection/parsing patterns.
`nonSpace` is `\S`, `digit` is `\d`, `word` is `\w`, `upperAZ` is `[A-Z]`,
`noRBrack` is `[^]]`, `noQuote` is `[^"]`, `anyNoNL` is `.`,
`plusMinus` is `[+-]` (ASCII semantics). -/
inductive CharCls where
  | nonSpace
  | digit
  | word
  | upperAZ
  | noRBrack
  | noQuote
  | anyNoNL
  | plusMinus

/-- Python whitespace (`\s`), restricted to ASCII. -/
def isPySpace (c : Char) : Bool :=
  c = ' ' || c = '\t' || c = '\n' || c = '\x0b' || c = '\x0c' || c = '\r'

/-- Python `str.strip()` with no argument: remove leading and trailing
whitespace. -/
def pyStrip (s : String) : String :=
  String.mk (((s.data.dropWhile isPySpace).reverse.dropWhile isPySpace).reverse)

def CharCls.mem : CharCls → Char → Bool
  | .nonSpace, c => !(isPySpace c)
  | .digit, c => c.isDigit
  | .word, c => c.isAlphanum || c = '_'
  | .upperAZ, c => 'A' ≤ c && c ≤ 'Z'
  | .noRBrack, c => c ≠ ']'
  | .noQuote, c => c ≠ '\"'
  | .anyNoNL, c => c ≠ '\n'
  | .plusMinus, c => c = '+' || c = '-'

/-- One token of a pattern: a literal character, a single-character class,
a greedy `+` or `*` over a class (optionally a named capture group), or an
exact repetition `{n}` of a class. -/
inductive RTok where
  | lit (c : Char)
  | one (cc : CharCls)
  | plus (cc : CharCls) (cap : Option String)
  | star (cc : CharCls) (cap : Option String)
  | rep (cc : CharCls) (n : Nat)

/-- The named captures of a match, leftmost group first (= `groupdict()`). -/
abbrev Caps := List (String × String)

/-- Record a capture group's consumed characters, if the token is a group. -/
def addCap (cap : Option String) (chars : List Char) (caps : Caps) : Caps :=
  match cap with
  | none => caps
  | some nm => (nm, String.mk chars) :: caps

/-- Try `f` at `k, k-1, ..., 0`, returning the first success: greedy
backtracking over the number of characters a quantifier consumes. -/
def descend (f : Nat → Option Caps) : Nat → Option Caps
  | 0 => f 0
  | k + 1 => (f (k + 1)) <|> descend f k

/-- Match a token list against a prefix of `s` (Python `re.match`: anchored
at the start, the end unanchored), returning the named captures of the
leftmost-greedy match, or `none`. -/
def mtch : List RTok → List Char → Option Caps
  | [], _ => some []
  | RTok.lit c :: ts, s =>
    match s with
    | [] => none
    | c2 :: s2 => if c2 = c then mtch ts s2 else none
  | RTok.one cc :: ts, s =>
    match s with
    | [] => none
    | c2 :: s2 => if cc.mem c2 then mtch ts s2 else none
  | RTok.rep cc n :: ts, s =>
    if (s.take n).length = n && (s.take n).all cc.mem then mtch ts (s.drop n)
    else none
  | RTok.plus cc cap :: ts, s =>
    let run := (s.takeWhile cc.mem).length
    if run = 0 then none
    else descend
      (fun k =>
        if k = 0 then none
        else (mtch ts (s.drop k)).map (addCap cap (s.take k))) run
  | RTok.star cc cap :: ts, s =>
    let run := (s.takeWhile cc.mem).length
    descend (fun k => (mtch ts (s.drop k)).map (addCap cap (s.take k))) run

/-- Python `re.search`: try a match at every start position, left to right. -/
def reSearch (ts : List RTok) : List Char → Option Caps
  | [] => mtch ts []
  | c :: s2 => (mtch ts (c :: s2)) <|> reSearch ts s2

/- ### The two line grammars (`logparser.py`) -/

/-- The detection pattern `NginxLogSubParser.DETECTION_PATTERN`:
`^\S+ \S+ \S+ \[\d{2}/\w{3}/\d{4}:\d{2}:\d{2}:\d{2} \+\d{4}\] "[A-Z]+ \S+ \S+" \d+ \d+ ".*" ".*"` -/
def nginxDetectionToks : List RTok :=
  [.plus .nonSpace none, .lit ' ', .plus .nonSpace none, .lit ' ',
   .plus .nonSpace none, .lit ' ', .lit '[',
   .rep .digit 2, .lit '/', .rep .word 3, .lit '/', .rep .digit 4,
   .lit ':', .rep .digit 2, .lit ':', .rep .digit 2, .lit ':', .rep .digit 2,
   .lit ' ', .lit '+', .rep .digit 4, .lit ']', .lit ' ',
   .lit '\"', .plus .upperAZ none, .lit ' ', .plus .nonSpace none, .lit ' ',
   .plus .nonSpace none, .lit '\"', .lit ' ',
   .plus .digit none, .lit ' ', .plus .digit none, .lit ' ',
   .lit '\"', .star .anyNoNL none, .lit '\"', .lit ' ',
   .lit '\"', .star .anyNoNL none, .lit '\"']

/-- The extraction pattern `NginxLogSubParser.PARSING_PATTERN` (also `ApacheLogSubParser.PARSING_PATTERN`):
`(?P<remote_addr>\S+) \S+ \S+ \[(?P<time_local>[^]]+)\] "(?P<request_method>\S+) (?P<request_uri>\S+) \S+" (?P<status>\d+) (?P<body_bytes_sent>\d+) "(?P<http_referer>[^"]*)" "(?P<http_user_agent>[^"]*)"` -/
def combinedParsingToks : List RTok :=
  [.plus .nonSpace (some "remote_addr"), .lit ' ',
   .plus .nonSpace none, .lit ' ', .plus .nonSpace none, .lit ' ',
   .lit '[', .plus .noRBrack (some "time_local"), .lit ']', .lit ' ',
   .lit '\"', .plus .nonSpace (some "request_method"), .lit ' ',
   .plus .nonSpace (some "request_uri"), .lit ' ',
   .plus .nonSpace none, .lit '\"', .lit ' ',
   .plus .digit (some "status"), .lit ' ',
   .plus .digit (some "body_bytes_sent"), .lit ' ',
   .lit '\"', .star .noQuote (some "http_referer"), .lit '\"', .lit ' ',
   .lit '\"', .star .noQuote (some "http_user_agent"), .lit '\"']

/-- The detection pattern `ApacheLogSubParser.DETECTION_PATTERN`:
`^\S+ \S+ \S+ \[\d{2}/\w{3}/\d{4}:\d{2}:\d{2}:\d{2} [+-]\d{4}\] "[A-Z]+ \S+ HTTP/\d\.\d" \d+ \d+` -/
def apacheDetectionToks : List RTok :=
  [.plus .nonSpace none, .lit ' ', .plus .nonSpace none, .lit ' ',
   .plus .nonSpace none, .lit ' ', .lit '[',
   .rep .digit 2, .lit '/', .rep .word 3, .lit '/', .rep .digit 4,
   .lit ':', .rep .digit 2, .lit ':', .rep .digit 2, .lit ':', .rep .digit 2,
   .lit ' ', .one .plusMinus, .rep .digit 4, .lit ']', .lit ' ',
   .lit '\"', .plus .upperAZ none, .lit ' ', .plus .nonSpace none, .lit ' ',
   .lit 'H', .lit 'T', .lit 'T', .lit 'P', .lit '/', .one .digit,
   .lit '.', .one .digit, .lit '\"', .lit ' ',
   .plus .digit none, .lit ' ', .plus .digit none]

/-- Predicate `NginxLogSubParser.can_parse`: `bool(self.detection_pattern.match(line))`. -/
def nginxCanParse (line : String) : Bool :=
  (mtch nginxDetectionToks line.data).isSome

/-- Extraction `NginxLogSubParser.parse_line`: `self.parsing_pattern.search(line)`,
returning `None` when the search fails, else `match.groupdict()`.  The
value is wrapped in `Except` to record that no statement of the body can
raise: `search` on a compiled pattern and `groupdict` are total. -/
def nginxParseLine (line : String) : Except PyError (Option Rec) :=
  match reSearch combinedParsingToks line.data with
  | none => Except.ok none
  | some caps => Except.ok (some caps)

/-- Predicate `ApacheLogSubParser.can_parse`: `bool(self.detection_pattern.match(line))`. -/
def apacheCanParse (line : String) : Bool :=
  (mtch apacheDetectionToks line.data).isSome

/-- Extraction `ApacheLogSubParser.parse_line` (same body as the Nginx one, with the
Apache instance's compiled `PARSING_PATTERN`, which is the same pattern). -/
def apacheParseLine (line : String) : Except PyError (Option Rec) :=
  match reSearch combinedParsingToks line.data with
  | none => Except.ok none
  | some caps => Except.ok (some caps)

/-- A registered `BaseLogSubParser`: its class name (used for the
`_parser` provenance tag), its `can_parse` and its `parse_line`. -/
structure Matcher where
  name : String
  can_parse : String → Bool
  parse_line : String → Except PyError (Option Rec)

/-- The `NginxLogSubParser()` instance. -/
def nginxMatcher : Matcher :=
  ⟨"NginxLogSubParser", nginxCanParse, nginxParseLine⟩

/-- The `ApacheLogSubParser()` instance. -/
def apacheMatcher : Matcher :=
  ⟨"ApacheLogSubParser", apacheCanParse, apacheParseLine⟩

example : nginxCanParse "1.2.3.4 - - [01/Jan/2020:00:00:00 +0000] \"GET /index.html HTTP/1.1\" 200 612 \"-\" \"Mozilla\"" = true := by decide

example : apacheCanParse "1.2.3.4 - - [01/Jan/2020:00:00:00 +0000] \"GET /index.html HTTP/1.1\" 200 612 \"-\" \"Mozilla\"" = true := by decide

example : nginxCanParse "2.3.4.5 - - [02/Feb/2021:10:20:30 +0000] \"POST /x HTTP/1.0\" 404 99" = false := by decide

example : apacheCanParse "2.3.4.5 - - [02/Feb/2021:10:20:30 +0000] \"POST /x HTTP/1.0\" 404 99" = true := by decide

example : nginxCanParse "plain text line" = false := by decide

/- ### `LogParser` (`file_parse.py`): detection and streaming -/

/-- The sampling loop of `LogParser.detect_format`: iterate the file's
lines with their index, `break` once the index reaches `sample_size`,
strip each line and keep it when non-empty.  `i` is the enumeration
counter. -/
def detectSampleGo (sampleSize : Nat) : List String → Nat → List String
  | [], _ => []
  | line :: rest, i =>
    if sampleSize ≤ i then []
    else
      let stripped := pyStrip line
      if stripped = "" then detectSampleGo sampleSize rest (i + 1)
      else stripped :: detectSampleGo sampleSize rest (i + 1)

/-- The `sample_lines` list built by `LogParser.detect_format`. -/
def detectSample (rawLines : List String) (sampleSize : Nat) : List String :=
  detectSampleGo sampleSize rawLines 0

/-- The `match_count` of one sub-parser over the sample. -/
def matchCount (p : Matcher) (sample : List String) : Nat :=
  sample.countP (fun line => p.can_parse line)

/-- The threshold test `match_count >= len(sample_lines) * 0.7`.  The
source compares against the float `len * 0.7`; for every feasible sample
length (far below 10^15) that comparison of an integer count against the
float equals the exact rational test `10 * count ≥ 7 * len` used here. -/
def clears (p : Matcher) (sample : List String) : Bool :=
  7 * sample.length ≤ 10 * matchCount p sample

/-- The matcher loop of `detect_format`: `return parser` for the first
registered sub-parser whose match count clears the threshold, `return
None` after the loop. -/
def pickMatcher (sample : List String) : List Matcher → Option Matcher
  | [] => none
  | p :: ps => if clears p sample then some p else pickMatcher sample ps

/-- Detection `LogParser.detect_format(file_path, sample_size=10)`.  An empty
sub-parser list returns `None` at once; a failure to open/read the file
is caught, printed and turned into `None` (the same value as "no match"). -/
def detect_format (subParsers : List Matcher) (file : Option (List String))
    (sampleSize : Nat) : Option Matcher :=
  if subParsers.isEmpty then none
  else
    match file with
    | none => none
    | some rawLines => pickMatcher (detectSample rawLines sampleSize) subParsers

/-- Python dict item assignment `d[k] = v`: overwrite the value in place
when the key is present, else append the pair at the end. -/
def setField (d : Rec) (k v : String) : Rec :=
  if d.any (fun q => q.1 == k) then
    d.map (fun q => if q.1 == k then (k, v) else q)
  else d ++ [(k, v)]

/-- The streaming loop of `LogParser.parse` after detection chose
`parser`: per line, strip, skip blank lines, call `parse_line`, skip
lines it returns `None` for, tag each produced dict with
`parsed_data['_parser'] = parser.__class__.__name__` and yield it.  An
exception from `parse_line` is re-raised, ending the stream. -/
def streamLines (parser : Matcher) : List String → StreamResult Rec
  | [] => ([], none)
  | line :: rest =>
    let stripped := pyStrip line
    if stripped = "" then streamLines parser rest
    else
      match parser.parse_line stripped with
      | Except.error e => ([], some e)
      | Except.ok none => streamLines parser rest
      | Except.ok (some d) =>
        let r := setField d "_parser" parser.name
        let step := streamLines parser rest
        (r :: step.1, step.2)

/-- The mutable state of a `LogParser` instance: its `sub_parsers` list
and its `_detected_parser` field (`None` on construction). -/
structure LogParserState where
  subParsers : List Matcher
  detectedParser : Option Matcher

/-- Streaming `LogParser.parse(file_path)`: run `detect_format` (with the default
`sample_size=10`); on `None` raise `ValueError`; otherwise store the
matcher in `self._detected_parser` and stream the file.  The reopen for
streaming fails when the file is unreadable.  Returns the state of the
`LogParser` object after the call together with the stream's outcome. -/
def logParse (st : LogParserState) (file : Option (List String)) :
    LogParserState × StreamResult Rec :=
  match detect_format st.subParsers file 10 with
  | none => (st, ([], some PyError.formatNotRecognized))
  | some parser =>
    let st2 := { st with detectedParser := some parser }
    match file with
    | none => (st2, ([], some PyError.ioError))
    | some lines => (st2, streamLines parser lines)

example :
    (detect_format [nginxMatcher]
      (some ["1.2.3.4 - - [01/Jan/2020:00:00:00 +0000] \"GET /index.html HTTP/1.1\" 200 612 \"-\" \"Mozilla\""])
      10).map Matcher.name = some "NginxLogSubParser" := by decide

example : (detect_format [nginxMatcher] (some ["plain text line"]) 10).isNone = true := by decide

example :
    (detect_format [nginxMatcher] (some ["", "   "]) 10).map Matcher.name
      = some "NginxLogSubParser" := by decide

/- ### File-type strategies and the dispatcher (`file_parse.py`) -/

/-- Python `str.endswith(suffix)`. -/
def strEndsWith (s suffix : String) : Bool :=
  suffix.data.isSuffixOf s.data

/-- ASCII lower-casing of one character (`str.lower()` on path strings). -/
def lowerChar (c : Char) : Char :=
  if 'A' ≤ c ∧ c ≤ 'Z' then Char.ofNat (c.toNat + 32) else c

/-- Python `str.lower()` (ASCII model). -/
def lowerStr (s : String) : String :=
  String.mk (s.data.map lowerChar)

/-- Predicate `CSVParser.supports`: `file_path.lower().endswith('.csv')`. -/
def csvSupports (path : String) : Bool :=
  strEndsWith (lowerStr path) ".csv"

/-- Predicate `JSONLParser.supports`: `file_path.lower().endswith(('.jsonl', '.ndjson'))`. -/
def jsonlSupports (path : String) : Bool :=
  strEndsWith (lowerStr path) ".jsonl" || strEndsWith (lowerStr path) ".ndjson"

/-- Predicate `LogParser.supports`: `file_path.lower().endswith('.log')`. -/
def logSupports (path : String) : Bool :=
  strEndsWith (lowerStr path) ".log"

/-- Predicate `TXTParser.supports`: `file_path.lower().endswith('.txt')`. -/
def txtSupports (path : String) : Bool :=
  strEndsWith (lowerStr path) ".txt"

/-- A record yielded by a strategy: CSV/JSONL/log strategies yield dicts,
the TXT strategy yields plain strings. -/
inductive Item where
  | dict (d : Rec)
  | txt (s : String)
deriving DecidableEq

/-- Modelled from the spec: the JSON decoding done by `json.loads` lives
in the standard library, not in this repository.  Stand-in decoder for
line-delimited structured records: a line is well-formed exactly when it
is a brace-delimited object, in which case it decodes to a single-field
record holding the raw text. -/
def jsonDecode (s : String) : Option Rec :=
  match s.data with
  | [] => none
  | c :: rest =>
    if c = Char.ofNat 123 ∧ s.data.getLast? = some (Char.ofNat 125) ∧ rest ≠ []
    then some [("raw", s)]
    else none

/-- The line loop of `JSONLParser.parse`: yield `decode(line.strip())`
per line; a decode failure (`json.JSONDecodeError`) is printed and
re-raised, ending the stream. -/
def jsonlParseWith (decode : String → Option Rec) : List String → StreamResult Rec
  | [] => ([], none)
  | line :: rest =>
    match decode (pyStrip line) with
    | none => ([], some PyError.malformedRecord)
    | some r =>
      let step := jsonlParseWith decode rest
      (r :: step.1, step.2)

/-- Streaming `JSONLParser.parse`: open the file (failures re-raised), then decode
line by line, fail-fast. -/
def jsonlRun (file : Option (List String)) : StreamResult Item :=
  match file with
  | none => ([], some PyError.ioError)
  | some lines =>
    let step := jsonlParseWith jsonDecode lines
    (step.1.map Item.dict, step.2)

/-- Modelled from the spec: `CSVParser.parse` delegates to the external
pandas chunked reader (not in this repository); modelled as one record
per data row, keyed positionally by the header row's comma-separated
column names; an unreadable or empty file raises. -/
def csvRun (file : Option (List String)) : StreamResult Item :=
  match file with
  | none => ([], some PyError.ioError)
  | some [] => ([], some PyError.ioError)
  | some (header :: rows) =>
    (rows.map (fun row => Item.dict ((header.splitOn ",").zip (row.splitOn ","))), none)

/-- Streaming `TXTParser.parse`: yield `line.strip()` for every line (blank lines
included); an unreadable file raises. -/
def txtRun (file : Option (List String)) : StreamResult Item :=
  match file with
  | none => ([], some PyError.ioError)
  | some lines => (lines.map (fun line => Item.txt (pyStrip line)), none)

/-- The log strategy as constructed by `FileParser.__init__`:
`LogParser()` with `sub_parsers = []` and `_detected_parser = None`;
records are dicts. -/
def logRun (file : Option (List String)) : StreamResult Item :=
  let step := (logParse ⟨[], none⟩ file).2
  (step.1.map Item.dict, step.2)

/-- One registered `FileParserStrategy`: its class name, its `supports`
predicate and its `parse` (the stream run to exhaustion). -/
structure Strategy where
  name : String
  supports : String → Bool
  run : Option (List String) → StreamResult Item

def csvStrategy : Strategy := ⟨"CSVParser", csvSupports, csvRun⟩

def jsonlStrategy : Strategy := ⟨"JSONLParser", jsonlSupports, jsonlRun⟩

def logStrategy : Strategy := ⟨"LogParser", logSupports, logRun⟩

def txtStrategy : Strategy := ⟨"TXTParser", txtSupports, txtRun⟩

/-- The `_strategies` list built by `FileParser.__init__` (also what
`ParserFactory.create_parser` returns: it adds nothing to it). -/
def defaultStrategies : List Strategy :=
  [csvStrategy, jsonlStrategy, logStrategy, txtStrategy]

/-- Lookup `FileParser._find_strategy`: the first registered strategy whose
`supports` is true, else `None`. -/
def find_strategy (strategies : List Strategy) (path : String) : Option Strategy :=
  strategies.find? (fun s => s.supports path)

/-- Dispatch `FileParser.parse`: raise `ValueError` when no strategy supports the
path; otherwise return the chosen strategy's parse.  The `Except` layer
distinguishes this dispatch-time raise from conditions raised later while
the returned stream is consumed (strategy parses are generators: their
bodies only run on iteration). -/
def dispatchParse (strategies : List Strategy) (path : String)
    (file : Option (List String)) : Except PyError (StreamResult Item) :=
  match find_strategy strategies path with
  | none => Except.error PyError.unsupportedFormat
  | some s => Except.ok (s.run file)

example : dispatchParse defaultStrategies "data.bin" (some ["x"])
    = Except.error PyError.unsupportedFormat := rfl

example : dispatchParse defaultStrategies "a.LOG" (some ["whatever"])
    = Except.ok ([], some PyError.formatNotRecognized) := rfl

example : dispatchParse defaultStrategies "notes.txt" (some ["hi  "])
    = Except.ok ([Item.txt "hi"], none) := rfl

/- ### Helper lemmas -/

/-- The matcher loop of `detect_format` returns the first registered
sub-parser clearing the threshold: it is `List.find?`. -/
theorem pickMatcher_eq_find? (sample : List String) :
    ∀ ps : List Matcher, pickMatcher sample ps = ps.find? (fun p => clears p sample) := by
  intro ps
  induction ps with
  | nil => rfl
  | cons p ps ih =>
    by_cases h : clears p sample = true
    · simp [pickMatcher, List.find?, h]
    · simp only [Bool.not_eq_true] at h
      simp [pickMatcher, List.find?, h, ih]

/-- The sampling loop, started at counter `i`, keeps the stripped
non-empty lines among the first `sampleSize - i` lines. -/
theorem detectSampleGo_eq (n : Nat) :
    ∀ (lines : List String) (i : Nat),
      detectSampleGo n lines i
        = ((lines.take (n - i)).map pyStrip).filter (fun s => s != "") := by
  intro lines
  induction lines with
  | nil => intro i; simp [detectSampleGo]
  | cons line rest ih =>
    intro i
    by_cases h : n ≤ i
    · have h0 : n - i = 0 := Nat.sub_eq_zero_of_le h
      simp [detectSampleGo, h, h0]
    · have h1 : n - i = (n - (i + 1)) + 1 := by omega
      by_cases h2 : pyStrip line = ""
      · simp [detectSampleGo, h, h1, h2, ih (i + 1)]
      · simp [detectSampleGo, h, h1, h2, ih (i + 1)]

/-- Lemma: `List.find?` returns the element after failing elements. -/
theorem find?_first_after_failures {α : Type} (f : α → Bool) :
    ∀ (pre : List α) (s : α) (post : List α),
      pre.all (fun x => !(f x)) = true → f s = true →
      (pre ++ s :: post).find? f = some s := by
  intro pre
  induction pre with
  | nil => intro s post _ hs; simp [List.find?, hs]
  | cons x pre ih =>
    intro s post hall hs
    simp only [List.all_cons, Bool.and_eq_true, Bool.not_eq_true'] at hall
    simp [List.find?, hall.1, ih s post (by simpa using hall.2) hs]

/-- Python dict assignment followed by lookup of the same key. -/
theorem lookup_setField (k v : String) :
    ∀ d : Rec, List.lookup k (setField d k v) = some v := by
  intro d
  unfold setField
  by_cases h : d.any (fun q => q.1 == k) = true
  · rw [if_pos h]
    induction d with
    | nil => simp at h
    | cons q d ih =>
      obtain ⟨a, b⟩ := q
      by_cases ha : a = k
      · subst ha
        simp [List.lookup_cons]
      · have hab : ((a, b).1 == k) = false := by simpa using ha
        have hk : (k == a) = false := by
          simp only [beq_eq_false_iff_ne]
          exact fun hkk => ha hkk.symm
        simp only [List.map_cons, hab, Bool.false_eq_true, if_false,
          List.lookup_cons, hk]
        apply ih
        simpa [hab] using h
  · rw [if_neg h]
    simp only [Bool.not_eq_true] at h
    induction d with
    | nil => simp [List.lookup_cons]
    | cons q d ih =>
      obtain ⟨a, b⟩ := q
      simp only [List.any_cons, Bool.or_eq_false_iff] at h
      have hk : (k == a) = false := by
        simp only [beq_eq_false_iff_ne]
        intro hkk
        have := h.1
        simp only [beq_eq_false_iff_ne] at this
        exact this (by simp [hkk])
      simp only [List.cons_append, List.lookup_cons, hk]
      exact ih h.2

/-- Every record yielded by the log streaming loop carries the
`_parser` provenance field with the selected matcher's class name. -/
theorem streamLines_provenance (p : Matcher) :
    ∀ lines : List String,
      (streamLines p lines).1.all
        (fun r => List.lookup "_parser" r == some p.name) = true := by
  intro lines
  induction lines with
  | nil => rfl
  | cons line rest ih =>
    by_cases hb : pyStrip line = ""
    · simpa [streamLines, hb] using ih
    · cases hp : p.parse_line (pyStrip line) with
      | error e => simp [streamLines, hb, hp]
      | ok r =>
        cases r with
        | none => simpa [streamLines, hb, hp] using ih
        | some d =>
          simp only [streamLines, hb, if_false, hp, List.all_cons, Bool.and_eq_true]
          refine ⟨?_, by simpa using ih⟩
          simp [lookup_setField]

/-- Python `str.endswith` is the list-suffix relation on the characters. -/
theorem strEndsWith_iff {s suffix : String} :
    strEndsWith s suffix = true ↔ suffix.data <:+ s.data := by
  simp [strEndsWith, List.isSuffixOf_iff_suffix]

/-- A non-empty suffix determines the last element. -/
theorem getLast?_of_suffix {a t : List Char} (h : a <:+ t) (ha : a ≠ []) :
    t.getLast? = a.getLast? := by
  obtain ⟨u, rfl⟩ := h
  exact List.getLast?_append_of_ne_nil u ha

/-- A path ending in `.log` is supported by the log strategy (lower-casing
preserves the suffix). -/
theorem logSupports_of_endsWith {path : String}
    (h : strEndsWith path ".log" = true) : logSupports path = true := by
  have hs : ".log".data <:+ path.data := strEndsWith_iff.mp h
  have hm : (".log".data.map lowerChar) <:+ (path.data.map lowerChar) :=
    hs.map lowerChar
  have he : ".log".data.map lowerChar = ".log".data := by decide
  rw [he] at hm
  exact strEndsWith_iff.mpr hm

/-- A path ending in `.log` is rejected by the CSV strategy. -/
theorem csvSupports_of_endsWith_log {path : String}
    (h : strEndsWith path ".log" = true) : csvSupports path = false := by
  have hlog : ".log".data <:+ (lowerStr path).data :=
    strEndsWith_iff.mp (logSupports_of_endsWith h)
  by_contra hc
  simp only [Bool.not_eq_false] at hc
  have hcsv : ".csv".data <:+ (lowerStr path).data := strEndsWith_iff.mp hc
  have h1 := getLast?_of_suffix hlog (by decide)
  have h2 := getLast?_of_suffix hcsv (by decide)
  rw [h1] at h2
  simp at h2

/-- A path ending in `.log` is rejected by the JSONL strategy. -/
theorem jsonlSupports_of_endsWith_log {path : String}
    (h : strEndsWith path ".log" = true) : jsonlSupports path = false := by
  have hlog : ".log".data <:+ (lowerStr path).data :=
    strEndsWith_iff.mp (logSupports_of_endsWith h)
  have h1 := getLast?_of_suffix hlog (by decide)
  simp only [jsonlSupports, Bool.or_eq_false_iff]
  constructor
  · by_contra hc
    simp only [Bool.not_eq_false] at hc
    have hj : ".jsonl".data <:+ (lowerStr path).data := strEndsWith_iff.mp hc
    have h2 := getLast?_of_suffix hj (by decide)
    rw [h1] at h2
    simp at h2
  · by_contra hc
    simp only [Bool.not_eq_false] at hc
    have hj : ".ndjson".data <:+ (lowerStr path).data := strEndsWith_iff.mp hc
    have h2 := getLast?_of_suffix hj (by decide)
    rw [h1] at h2
    simp at h2

/- ### Claim theorems -/

/-- C4: a fresh `FileParser` (what `ParserFactory.create_parser` returns)
constructs its auto-detect log strategy as `LogParser()`, whose
`sub_parsers` list is empty — the Nginx/Apache grammars are never
registered — so for every path ending in `.log` the dispatched parse
yields no records and raises the format-not-recognized `ValueError`,
whatever the file holds. -/
theorem c4_default_log_strategy_always_fails (path : String)
    (file : Option (List String)) (h : strEndsWith path ".log" = true) :
    dispatchParse defaultStrategies path file
      = Except.ok ([], some PyError.formatNotRecognized) := by
  have hcsv := csvSupports_of_endsWith_log h
  have hjsonl := jsonlSupports_of_endsWith_log h
  have hlog := logSupports_of_endsWith h
  have hfind : find_strategy defaultStrategies path = some logStrategy := by
    simp [find_strategy, defaultStrategies, List.find?, csvStrategy,
      jsonlStrategy, logStrategy, hcsv, hjsonl, hlog]
  simp only [dispatchParse, hfind]
  rfl

theorem c4_default_log_strategy_always_fails_witness :
    strEndsWith "server.log" ".log" = true ∧
      dispatchParse defaultStrategies "server.log"
          (some ["1.2.3.4 not a recognizable access log line"])
        = Except.ok ([], some PyError.formatNotRecognized) :=
  ⟨by decide, c4_default_log_strategy_always_fails "server.log" _ (by decide)⟩

/-- C5: `FileParser.parse` delegates to the first registered strategy in
registration order whose `supports` accepts the path; the built-in
registration order is CSV, JSONL, Log, TXT; and the dispatcher raises the
unsupported-file-type `ValueError` exactly when no registered strategy
supports the path. -/
theorem c5_dispatch_first_supporting_strategy :
    (defaultStrategies.map Strategy.name
        = ["CSVParser", "JSONLParser", "LogParser", "TXTParser"]) ∧
    (∀ (pre : List Strategy) (s : Strategy) (post : List Strategy)
        (path : String) (file : Option (List String)),
        pre.all (fun t => !(t.supports path)) = true → s.supports path = true →
        dispatchParse (pre ++ s :: post) path file = Except.ok (s.run file)) ∧
    (∀ (strategies : List Strategy) (path : String) (file : Option (List String)),
        dispatchParse strategies path file = Except.error PyError.unsupportedFormat
          ↔ strategies.all (fun t => !(t.supports path)) = true) := by
  refine ⟨rfl, ?_, ?_⟩
  · intro pre s post path file hall hs
    simp [dispatchParse, find_strategy,
      find?_first_after_failures (fun t => t.supports path) pre s post hall hs]
  · intro strategies path file
    constructor
    · intro h
      cases hf : find_strategy strategies path with
      | none =>
        have hnone : ∀ t ∈ strategies, ¬ (t.supports path = true) := by
          simpa [find_strategy, List.find?_eq_none] using hf
        simp only [List.all_eq_true]
        intro t ht
        simpa using hnone t ht
      | some s => simp [dispatchParse, hf] at h
    · intro h
      have hf : find_strategy strategies path = none := by
        simp only [find_strategy, List.find?_eq_none]
        intro t ht
        have := (List.all_eq_true.mp h) t ht
        simpa using this
      simp [dispatchParse, hf]

theorem c5_dispatch_first_supporting_strategy_witness :
    dispatchParse defaultStrategies "notes.txt" (some ["hello  "])
      = Except.ok (txtStrategy.run (some ["hello  "])) :=
  c5_dispatch_first_supporting_strategy.2.1
    [csvStrategy, jsonlStrategy, logStrategy] txtStrategy [] "notes.txt"
    (some ["hello  "]) (by decide) (by decide)

/-- C1 (amended): for a file whose sampled prefix has at least one
non-empty line, `detect_format` returns the earliest-registered matcher
whose match count is at least 70% of the sampled lines (`List.find?` over
the registration order) and no value when no matcher reaches the
threshold; the maximal match count plays no role in the selection. -/
theorem c1_detect_earliest_matcher_over_threshold
    (subParsers : List Matcher) (rawLines : List String) (n : Nat)
    (hne : detectSample rawLines n ≠ []) :
    detect_format subParsers (some rawLines) n
      = subParsers.find? (fun p => clears p (detectSample rawLines n)) := by
  cases subParsers with
  | nil => rfl
  | cons p ps => simp [detect_format, pickMatcher_eq_find?]

theorem c1_detect_earliest_matcher_over_threshold_witness :
    detectSample ["plain text line"] 10 ≠ [] ∧
      detect_format [nginxMatcher] (some ["plain text line"]) 10
        = [nginxMatcher].find?
            (fun p => clears p (detectSample ["plain text line"] 10)) :=
  ⟨by decide,
    c1_detect_earliest_matcher_over_threshold [nginxMatcher]
      ["plain text line"] 10 (by decide)⟩

/-- C1 counterexample: register the Nginx and Apache sub-parsers in that
order and sample five lines of which four are combined-format (matched by
both detectors) and one is common-format (matched only by Apache): Nginx
matches 4 of 5 (over the 70% threshold of 3.5), Apache matches all 5, yet
`detect_format` returns the Nginx matcher — not the matcher with the
highest match count, which the claim requires. -/
theorem c1_counterexample_not_highest_count :
    (detect_format [nginxMatcher, apacheMatcher]
        (some ["1.2.3.4 - - [01/Jan/2020:00:00:00 +0000] \"GET /a HTTP/1.1\" 200 612 \"-\" \"Mozilla\"",
               "1.2.3.4 - - [01/Jan/2020:00:00:01 +0000] \"GET /b HTTP/1.1\" 200 42 \"-\" \"Mozilla\"",
               "1.2.3.4 - - [01/Jan/2020:00:00:02 +0000] \"GET /c HTTP/1.1\" 304 0 \"-\" \"curl\"",
               "1.2.3.4 - - [01/Jan/2020:00:00:03 +0000] \"PUT /d HTTP/1.1\" 201 7 \"-\" \"curl\"",
               "2.3.4.5 - - [02/Feb/2021:10:20:30 +0000] \"POST /x HTTP/1.0\" 404 99"])
        10).map Matcher.name = some "NginxLogSubParser" ∧
    matchCount nginxMatcher
        (detectSample ["1.2.3.4 - - [01/Jan/2020:00:00:00 +0000] \"GET /a HTTP/1.1\" 200 612 \"-\" \"Mozilla\"",
               "1.2.3.4 - - [01/Jan/2020:00:00:01 +0000] \"GET /b HTTP/1.1\" 200 42 \"-\" \"Mozilla\"",
               "1.2.3.4 - - [01/Jan/2020:00:00:02 +0000] \"GET /c HTTP/1.1\" 304 0 \"-\" \"curl\"",
               "1.2.3.4 - - [01/Jan/2020:00:00:03 +0000] \"PUT /d HTTP/1.1\" 201 7 \"-\" \"curl\"",
               "2.3.4.5 - - [02/Feb/2021:10:20:30 +0000] \"POST /x HTTP/1.0\" 404 99"] 10) = 4 ∧
    matchCount apacheMatcher
        (detectSample ["1.2.3.4 - - [01/Jan/2020:00:00:00 +0000] \"GET /a HTTP/1.1\" 200 612 \"-\" \"Mozilla\"",
               "1.2.3.4 - - [01/Jan/2020:00:00:01 +0000] \"GET /b HTTP/1.1\" 200 42 \"-\" \"Mozilla\"",
               "1.2.3.4 - - [01/Jan/2020:00:00:02 +0000] \"GET /c HTTP/1.1\" 304 0 \"-\" \"curl\"",
               "1.2.3.4 - - [01/Jan/2020:00:00:03 +0000] \"PUT /d HTTP/1.1\" 201 7 \"-\" \"curl\"",
               "2.3.4.5 - - [02/Feb/2021:10:20:30 +0000] \"POST /x HTTP/1.0\" 404 99"] 10) = 5 ∧
    clears apacheMatcher
        (detectSample ["1.2.3.4 - - [01/Jan/2020:00:00:00 +0000] \"GET /a HTTP/1.1\" 200 612 \"-\" \"Mozilla\"",
               "1.2.3.4 - - [01/Jan/2020:00:00:01 +0000] \"GET /b HTTP/1.1\" 200 42 \"-\" \"Mozilla\"",
               "1.2.3.4 - - [01/Jan/2020:00:00:02 +0000] \"GET /c HTTP/1.1\" 304 0 \"-\" \"curl\"",
               "1.2.3.4 - - [01/Jan/2020:00:00:03 +0000] \"PUT /d HTTP/1.1\" 201 7 \"-\" \"curl\"",
               "2.3.4.5 - - [02/Feb/2021:10:20:30 +0000] \"POST /x HTTP/1.0\" 404 99"] 10) = true := by
  exact ⟨rfl, rfl, rfl, rfl⟩

/-- C2 (code refutation): a file with zero non-empty lines yields an
empty sample, and the threshold test `0 >= 0 * 0.7` is vacuously true,
so `detect_format` with a non-empty matcher set returns the
first-registered matcher, not "no match" as the claim states. -/
theorem c2_empty_sample_returns_first_matcher :
    detectSample ["", "   "] 10 = [] ∧
      (detect_format [nginxMatcher] (some ["", "   "]) 10).map Matcher.name
        = some "NginxLogSubParser" :=
  ⟨rfl, rfl⟩

/-- C3 (code refutation): `detect_format` catches the read failure of an
unreadable file and returns `None` — the same value as "no match" (shown
with a readable one-line file no matcher accepts) — and `LogParser.parse`
then raises the same format-not-recognized `ValueError` in both
situations, so a caller cannot tell bad file-system state from an
unrecognized format. -/
theorem c3_io_failure_indistinguishable_from_no_match :
    detect_format [nginxMatcher] none 10 = none ∧
      detect_format [nginxMatcher] (some ["plain text line"]) 10 = none ∧
      (logParse ⟨[nginxMatcher], none⟩ none).2
        = ([], some PyError.formatNotRecognized) ∧
      (logParse ⟨[nginxMatcher], none⟩ (some ["plain text line"])).2
        = ([], some PyError.formatNotRecognized) :=
  ⟨rfl, rfl, rfl, rfl⟩

/-- C8 (amended): the detection sample is the list of stripped non-empty
lines found among the first `sample_size` raw lines of the file, in
order — the loop counts raw lines, not non-empty ones. -/
theorem c8_sample_is_nonempty_prefix_of_raw_lines
    (rawLines : List String) (sampleSize : Nat) :
    detectSample rawLines sampleSize
      = ((rawLines.take sampleSize).map pyStrip).filter (fun s => s != "") := by
  simpa using detectSampleGo_eq sampleSize rawLines 0

/-- C8 counterexample: the file `["a", "", "b"]` has exactly two
non-empty lines, so with `sample_size = 2` the claim demands a sample of
exactly two lines; the code reads the first two raw lines and keeps only
`"a"`, a sample of length one. -/
theorem c8_counterexample_interleaved_blank_line :
    ((["a", "", "b"].map pyStrip).filter (fun s => s != "")).length = 2 ∧
      detectSample ["a", "", "b"] 2 = ["a"] :=
  ⟨rfl, rfl⟩

/-- C6: the JSONL strategy fails fast at the first malformed line: every
record decoded from the lines before it is yielded in order, the stream
then raises `MalformedRecord`, and nothing at or after the malformed line
is yielded. -/
theorem c6_jsonl_fail_fast (pre : List String) (bad : String)
    (post : List String)
    (hpre : pre.all (fun l => (jsonDecode (pyStrip l)).isSome) = true)
    (hbad : jsonDecode (pyStrip bad) = none) :
    jsonlRun (some (pre ++ bad :: post))
      = ((pre.filterMap (fun l => jsonDecode (pyStrip l))).map Item.dict,
          some PyError.malformedRecord) := by
  have key : ∀ pre2 : List String,
      pre2.all (fun l => (jsonDecode (pyStrip l)).isSome) = true →
      jsonlParseWith jsonDecode (pre2 ++ bad :: post)
        = (pre2.filterMap (fun l => jsonDecode (pyStrip l)),
            some PyError.malformedRecord) := by
    intro pre2
    induction pre2 with
    | nil => intro _; simp [jsonlParseWith, hbad]
    | cons l rest ih =>
      intro hall
      simp only [List.all_cons, Bool.and_eq_true] at hall
      obtain ⟨r, hr⟩ := Option.isSome_iff_exists.mp hall.1
      simp [jsonlParseWith, hr, ih hall.2, List.filterMap_cons]
  simp [jsonlRun, key pre hpre]

theorem c6_jsonl_fail_fast_witness :
    jsonlRun (some (["\x7b123\x7d", "\x7b456\x7d"]
        ++ "oops not a record" :: ["\x7b789\x7d", "\x7b000\x7d"]))
      = ((["\x7b123\x7d", "\x7b456\x7d"].filterMap
            (fun l => jsonDecode (pyStrip l))).map Item.dict,
          some PyError.malformedRecord) :=
  c6_jsonl_fail_fast ["\x7b123\x7d", "\x7b456\x7d"] "oops not a record"
    ["\x7b789\x7d", "\x7b000\x7d"] (by decide) (by decide)

/-- C7: for both registered line grammars, a line accepted by `can_parse`
cannot make `parse_line` raise: the embedded `parse_line` bodies (a
`search` on the compiled pattern followed by `groupdict`, both total)
always return normally, with either a record or no value. -/
theorem c7_can_parse_implies_parse_line_returns (line : String) :
    (nginxCanParse line = true → (nginxParseLine line).isOk = true) ∧
    (apacheCanParse line = true → (apacheParseLine line).isOk = true) := by
  constructor
  · intro _
    cases h : reSearch combinedParsingToks line.data <;>
      simp [nginxParseLine, h, Except.isOk, Except.toBool]
  · intro _
    cases h : reSearch combinedParsingToks line.data <;>
      simp [apacheParseLine, h, Except.isOk, Except.toBool]

theorem c7_can_parse_implies_parse_line_returns_witness :
    nginxCanParse "1.2.3.4 - - [01/Jan/2020:00:00:00 +0000] \"GET /a HTTP/1.1\" 200 612 \"-\" \"Mozilla\"" = true ∧
    (nginxParseLine "1.2.3.4 - - [01/Jan/2020:00:00:00 +0000] \"GET /a HTTP/1.1\" 200 612 \"-\" \"Mozilla\"").isOk = true :=
  ⟨by decide,
    (c7_can_parse_implies_parse_line_returns
      "1.2.3.4 - - [01/Jan/2020:00:00:00 +0000] \"GET /a HTTP/1.1\" 200 612 \"-\" \"Mozilla\"").1
      (by decide)⟩

/-- C9: when detection succeeds with matcher `p`, `LogParser.parse`
streams the file with that single matcher selected once before streaming
(`streamLines p`), and every yielded record carries the `_parser`
provenance field holding `p`'s class name. -/
theorem c9_provenance_and_single_matcher
    (subParsers : List Matcher) (d : Option Matcher) (lines : List String)
    (p : Matcher)
    (hdet : detect_format subParsers (some lines) 10 = some p) :
    (logParse ⟨subParsers, d⟩ (some lines)).2 = streamLines p lines ∧
    (streamLines p lines).1.all
      (fun r => List.lookup "_parser" r == some p.name) = true := by
  constructor
  · simp [logParse, hdet]
  · exact streamLines_provenance p lines

theorem c9_provenance_and_single_matcher_witness :
    (logParse ⟨[nginxMatcher], none⟩
        (some ["1.2.3.4 - - [01/Jan/2020:00:00:00 +0000] \"GET /a HTTP/1.1\" 200 612 \"-\" \"Mozilla\""])).2
      = streamLines nginxMatcher
          ["1.2.3.4 - - [01/Jan/2020:00:00:00 +0000] \"GET /a HTTP/1.1\" 200 612 \"-\" \"Mozilla\""] ∧
    (streamLines nginxMatcher
        ["1.2.3.4 - - [01/Jan/2020:00:00:00 +0000] \"GET /a HTTP/1.1\" 200 612 \"-\" \"Mozilla\""]).1.all
      (fun r => List.lookup "_parser" r == some nginxMatcher.name) = true :=
  c9_provenance_and_single_matcher [nginxMatcher] none
    ["1.2.3.4 - - [01/Jan/2020:00:00:00 +0000] \"GET /a HTTP/1.1\" 200 612 \"-\" \"Mozilla\""]
    nginxMatcher rfl

/-- C10 (amended): `LogParser.parse` leaves the `sub_parsers` list
untouched and its yielded records and terminal condition are independent
of the prior value of the `_detected_parser` field, so parse calls remain
behaviorally independent; the `_detected_parser` field itself is,
however, overwritten by a successful detection (see the counterexample). -/
theorem c10_parse_outcome_independent_of_detection_cache
    (st st2 : LogParserState) (file : Option (List String))
    (h : st.subParsers = st2.subParsers) :
    (logParse st file).1.subParsers = st.subParsers ∧
    (logParse st file).2 = (logParse st2 file).2 := by
  obtain ⟨ps, d⟩ := st
  obtain ⟨ps2, d2⟩ := st2
  dsimp only at h
  subst h
  cases file with
  | none =>
    cases hdf : detect_format ps none 10 <;> simp [logParse, hdf]
  | some lines =>
    cases hdf : detect_format ps (some lines) 10 <;> simp [logParse, hdf]

theorem c10_parse_outcome_independent_of_detection_cache_witness :
    (logParse ⟨[nginxMatcher], none⟩ (some ["plain"])).1.subParsers
        = [nginxMatcher] ∧
    (logParse ⟨[nginxMatcher], none⟩ (some ["plain"])).2
      = (logParse ⟨[nginxMatcher], some apacheMatcher⟩ (some ["plain"])).2 :=
  c10_parse_outcome_independent_of_detection_cache ⟨[nginxMatcher], none⟩
    ⟨[nginxMatcher], some apacheMatcher⟩ (some ["plain"]) rfl

/-- C10 counterexample: a parse on which detection succeeds mutates the
long-lived `LogParser` object: its `_detected_parser` field is `None`
before the call and holds the selected matcher afterwards, so parsing a
file does mutate a field of the strategy object. -/
theorem c10_counterexample_detected_parser_field_mutated :
    (LogParserState.mk [nginxMatcher] none).detectedParser.isNone = true ∧
    ((logParse ⟨[nginxMatcher], none⟩
        (some ["1.2.3.4 - - [01/Jan/2020:00:00:00 +0000] \"GET /a HTTP/1.1\" 200 612 \"-\" \"Mozilla\""])).1.detectedParser).isSome
      = true :=
  ⟨rfl, rfl⟩
